import Mathlib

/-
Verification development for the ClarifAI streaming session engine.

The definitions below are a shallow embedding of the two hook modules
src/frontend/src/hooks/useConceptFlag.ts and
src/frontend/src/hooks/useDeepgramAudio.{ts,js}, and of the component
src/frontend/src/components/AudioToTextRecorder.tsx.  React state and refs
become fields of an explicit state record; every browser event handler
becomes a function from state to state; the browser event loop becomes an
explicit event type folded over a list.
-/

namespace ClarifAI

/-- Browser WebSocket readyState values. -/
inductive ReadyState
  | connecting
  | opened
  | closing
  | closed
deriving DecidableEq, Repr

/-- Reconnect delay computed in ws.onclose of useConceptFlag.ts:
Math.min(1000 * Math.pow(2, reconnectAttemptsRef.current), 30000). -/
def reconnectDelay (attempt : Nat) : Nat :=
  min (1000 * 2 ^ attempt) 30000

/-- maxReconnectAttempts = 5 in useConceptFlag.ts. -/
def maxReconnectAttempts : Nat := 5

/-- Error message passed to onError when the reconnect ceiling is reached. -/
def fatalMsg : String :=
  "Could not establish WebSocket connection after multiple attempts"

/-- Error message passed to onError by ws.onerror. -/
def connErrMsg : String :=
  "WebSocket connection error - check developer console for details"

/-- Error message passed to onError by flagConcept when the socket is not open. -/
def notConnectedMsg : String := "WebSocket not connected"

/-- Error message passed to onError by the 5 s connection timeout. -/
def timeoutMsg : String :=
  "WebSocket connection timed out - server may be unreachable"

/-- Stands for the message of the SyntaxError that JSON.parse throws on a
malformed frame; ws.onmessage forwards that error object to onError. -/
def parseFailMsg : String := "parse error"

/-- Fallback used in ws.onmessage when a server error carries no message. -/
def unknownErrMsg : String := "Unknown error"

/-- ConceptFlagData from useConceptFlag.ts: the payload flagConcept serializes
onto the wire. -/
structure ConceptFlagData where
  concept_name : String
  context : String
  user_id : Option String
  lecture_id : Option String
  transcript_id : Option String
  difficulty_level : Option Nat
deriving DecidableEq, Repr

/-- FlagConceptResponse from useConceptFlag.ts: shape of a parsed inbound
frame on /ws/flag-concept.  The nested explanation object is kept abstract
as the payload handed to onExplanation. -/
structure FlagConceptResponse where
  explanation : String
  status : String
  message : Option String
deriving DecidableEq, Repr

/-- A raw inbound text frame: either JSON.parse succeeds, yielding a
FlagConceptResponse, or it throws. -/
inductive RawFrame
  | malformed
  | wellFormed (m : FlagConceptResponse)
deriving DecidableEq, Repr

/-- State of the useConceptFlag hook.  socket is the socket held in the
webSocket state variable together with its readyState; staleCloses counts
close events still queued for sockets that were replaced in that variable;
scheduledDelays, sentMessages, sentAuth, explanations and errorMsgs record
the observable outputs (setTimeout delays scheduled by ws.onclose, wire
messages sent, auth messages sent, onExplanation and onError invocations). -/
structure FlagState where
  socket : Option ReadyState
  staleCloses : Nat
  isConnected : Bool
  isLoading : Bool
  reconnectTimer : Option Nat
  reconnectAttempts : Nat
  scheduledDelays : List Nat
  sentMessages : List ConceptFlagData
  sentAuth : Nat
  explanations : List String
  errorMsgs : List String
deriving DecidableEq, Repr

/-- Body of ws.onclose in useConceptFlag.ts: setIsConnected(false); below the
ceiling, schedule a reconnect after the capped exponential delay (storing the
timer in reconnectTimeoutRef); at the ceiling, report the fatal error. -/
def oncloseBody (s : FlagState) : FlagState :=
  let s := { s with isConnected := false }
  if s.reconnectAttempts < maxReconnectAttempts then
    let d := reconnectDelay s.reconnectAttempts
    { s with reconnectTimer := some d, scheduledDelays := s.scheduledDelays ++ [d] }
  else
    { s with errorMsgs := s.errorMsgs ++ [fatalMsg] }

/-- Body of ws.onopen in useConceptFlag.ts: setIsConnected(true), reset the
attempt counter, send the auth token when one is present, clear any pending
reconnect timer. -/
def onopenBody (hasAuthToken : Bool) (s : FlagState) : FlagState :=
  let s := { s with isConnected := true, reconnectAttempts := 0 }
  let s := if hasAuthToken then { s with sentAuth := s.sentAuth + 1 } else s
  { s with reconnectTimer := none }

/-- connectWebSocket from useConceptFlag.ts: close the socket currently held
in the webSocket state variable, then store a fresh CONNECTING socket.  A
close event owed by the replaced socket (it was OPEN, CONNECTING or already
CLOSING) becomes a stale close; close() on an already CLOSED socket fires
nothing. -/
def connectWebSocket (s : FlagState) : FlagState :=
  let s :=
    match s.socket with
    | none => s
    | some rs =>
        if rs = ReadyState.closed then { s with socket := none }
        else { s with socket := none, staleCloses := s.staleCloses + 1 }
  { s with socket := some ReadyState.connecting }

/-- flagConcept from useConceptFlag.ts: with no socket or a socket whose
readyState is not OPEN it reports the not-connected error and sends nothing;
otherwise it serializes the payload, sets isLoading and sends it. -/
def flagConcept (s : FlagState) (d : ConceptFlagData) : FlagState :=
  if s.socket = some ReadyState.opened then
    { s with isLoading := true, sentMessages := s.sentMessages ++ [d] }
  else
    { s with errorMsgs := s.errorMsgs ++ [notConnectedMsg] }

/-- Body of ws.onmessage in useConceptFlag.ts: setIsLoading(false) runs first,
before JSON.parse; a parse failure is caught and forwarded to onError and the
handler returns; a parsed message with status "error" goes to onError with the
server message (or the fallback), anything else goes to onExplanation. -/
def onMessageBody (s : FlagState) (f : RawFrame) : FlagState :=
  let s := { s with isLoading := false }
  match f with
  | RawFrame.malformed => { s with errorMsgs := s.errorMsgs ++ [parseFailMsg] }
  | RawFrame.wellFormed m =>
      if m.status = "error" then
        { s with errorMsgs := s.errorMsgs ++ [m.message.getD unknownErrMsg] }
      else
        { s with explanations := s.explanations ++ [m.explanation] }

/-- The useEffect cleanup in useConceptFlag.ts (manual disconnect / unmount):
webSocket.close() followed by clearTimeout(reconnectTimeoutRef.current).
Closing an OPEN or CONNECTING socket moves it to CLOSING, so its close event
is still to be delivered; close() on a CLOSED socket fires nothing. -/
def cleanupEffect (s : FlagState) : FlagState :=
  let s :=
    match s.socket with
    | some ReadyState.opened => { s with socket := some ReadyState.closing }
    | some ReadyState.connecting => { s with socket := some ReadyState.closing }
    | _ => s
  { s with reconnectTimer := none }

/-- Events driving the useConceptFlag machine.  openOk / connectFail / netClose
are browser outcomes on the current socket (a failed attempt fires onerror then
onclose, combined in one step); deliverClose delivers the close event of a
locally closed current socket; deliverStaleClose that of a replaced socket;
connTimeout is the 5 s connection timeout firing on a still-CONNECTING socket;
timerFire is the reconnect timer; cleanup the effect teardown; message an
inbound frame; flag a flagConcept call. -/
inductive FlagEv
  | openOk
  | connectFail
  | netClose
  | deliverClose
  | deliverStaleClose
  | connTimeout
  | timerFire
  | cleanup
  | message (f : RawFrame)
  | flag (d : ConceptFlagData)
deriving DecidableEq, Repr

/-- One step of the useConceptFlag machine.  Events whose guard does not hold
in the current state leave it unchanged. -/
def flagStep (hasAuthToken : Bool) (s : FlagState) : FlagEv → FlagState
  | FlagEv.openOk =>
      if s.socket = some ReadyState.connecting then
        onopenBody hasAuthToken { s with socket := some ReadyState.opened }
      else s
  | FlagEv.connectFail =>
      if s.socket = some ReadyState.connecting then
        oncloseBody { s with socket := some ReadyState.closed,
                             errorMsgs := s.errorMsgs ++ [connErrMsg] }
      else s
  | FlagEv.netClose =>
      if s.socket = some ReadyState.opened then
        oncloseBody { s with socket := some ReadyState.closed }
      else s
  | FlagEv.deliverClose =>
      if s.socket = some ReadyState.closing then
        oncloseBody { s with socket := some ReadyState.closed }
      else s
  | FlagEv.deliverStaleClose =>
      if 0 < s.staleCloses then oncloseBody { s with staleCloses := s.staleCloses - 1 }
      else s
  | FlagEv.connTimeout =>
      if s.socket = some ReadyState.connecting then
        { s with socket := some ReadyState.closing,
                 errorMsgs := s.errorMsgs ++ [timeoutMsg] }
      else s
  | FlagEv.timerFire =>
      match s.reconnectTimer with
      | some _ =>
          connectWebSocket
            { s with reconnectTimer := none,
                     reconnectAttempts := s.reconnectAttempts + 1 }
      | none => s
  | FlagEv.cleanup => cleanupEffect s
  | FlagEv.message f =>
      if s.socket = some ReadyState.opened then onMessageBody s f else s
  | FlagEv.flag d => flagConcept s d

/-- Fold a list of events over the machine. -/
def runFlag (hasAuthToken : Bool) (s : FlagState) (evs : List FlagEv) : FlagState :=
  evs.foldl (flagStep hasAuthToken) s

/-- Initial hook state before the mount effect runs. -/
def flagInit : FlagState :=
  { socket := none, staleCloses := 0, isConnected := false, isLoading := false,
    reconnectTimer := none, reconnectAttempts := 0, scheduledDelays := [],
    sentMessages := [], sentAuth := 0, explanations := [], errorMsgs := [] }

/-- State right after mounting: the useEffect body calls connectWebSocket(). -/
def flagMount : FlagState := connectWebSocket flagInit

/-- Scenario B of the spec: the connection opens, the peer closes it, and every
reconnect attempt fails (onerror followed by onclose on each new socket). -/
def scenarioB : List FlagEv :=
  [FlagEv.openOk, FlagEv.netClose,
   FlagEv.timerFire, FlagEv.connectFail,
   FlagEv.timerFire, FlagEv.connectFail,
   FlagEv.timerFire, FlagEv.connectFail,
   FlagEv.timerFire, FlagEv.connectFail,
   FlagEv.timerFire, FlagEv.connectFail]

/-- MediaRecorder states used by the hooks. -/
inductive RecorderState
  | inactive
  | recording
deriving DecidableEq, Repr

/-- A concept object carried by inbound audio-to-text messages.  The source
treats it as an untyped object; it is kept abstract here.  As a JavaScript
object it is always truthy. -/
structure ConceptInfo where
  name : String
deriving DecidableEq, Repr

/-- JavaScript truthiness of an optional string field: absent and the empty
string are falsy. -/
def jsTruthy : Option String → Bool
  | none => false
  | some t => t != ""

/-- Shape of a parsed inbound message on the audio-to-text socket, as probed
field by field in socket.onmessage of useDeepgramAudio: each field is absent
(undefined) or present. -/
structure DgMsg where
  status : Option String
  session_id : Option String
  transcript : Option String
  is_final : Option Bool
  full_transcript : Option String
  concepts : Option (List ConceptInfo)
  current_concept : Option ConceptInfo
  message : Option String
deriving DecidableEq, Repr

/-- A raw inbound text frame on the audio-to-text socket: JSON.parse either
succeeds or throws. -/
inductive DgFrame
  | malformed
  | wellFormed (d : DgMsg)
deriving DecidableEq, Repr

/-- State of the useDeepgramAudio hook.  The .js variant is a superset of the
.ts variant (isConnecting, lastActionTime and sentInit are .js only).
pendingEncodes counts captured frames whose asynchronous base64 encode has
not yet completed; sentFrames counts frames actually transmitted; sendCalls
counts socket.send invocations issued by the code; sendCallsNotOpen counts
send invocations issued while the socket was not OPEN (the browser discards
the data of such a call). -/
structure DgState where
  socket : Option ReadyState
  isRecording : Bool
  isConnected : Bool
  isConnecting : Bool
  error : Option String
  sessionId : Option String
  transcript : String
  concepts : List ConceptInfo
  currentConcept : Option ConceptInfo
  recorder : Option RecorderState
  streamHeld : Bool
  lastActionTime : Nat
  pendingEncodes : Nat
  sentFrames : Nat
  sendCalls : Nat
  sendCallsNotOpen : Nat
  sentInit : Nat
  onTranscriptCalls : List (String × Bool)
  onConceptsCalls : Nat
  onConnectCalls : Nat
  onErrorCalls : Nat
deriving DecidableEq, Repr

/-- Initial state of the useDeepgramAudio hook. -/
def dgInit : DgState :=
  { socket := none, isRecording := false, isConnected := false,
    isConnecting := false, error := none, sessionId := none, transcript := "",
    concepts := [], currentConcept := none, recorder := none,
    streamHeld := false, lastActionTime := 0, pendingEncodes := 0,
    sentFrames := 0, sendCalls := 0, sendCallsNotOpen := 0, sentInit := 0,
    onTranscriptCalls := [], onConceptsCalls := 0, onConnectCalls := 0,
    onErrorCalls := 0 }

/-- Body of socket.onmessage in useDeepgramAudio (the routing is identical in
the .ts and .js variants).  The whole body runs inside try/catch: a frame on
which JSON.parse throws is logged and changes nothing.  A parsed message is
probed field by field, in source order: connection confirmation, transcript
(a final one with a truthy full_transcript replaces the stored transcript
wholesale), concepts, current concept, error status. -/
def dgOnMessage (s : DgState) (f : DgFrame) : DgState :=
  match f with
  | DgFrame.malformed => s
  | DgFrame.wellFormed d =>
      let s :=
        if d.status == some "connected" && jsTruthy d.session_id then
          { s with sessionId := d.session_id,
                   onConnectCalls := s.onConnectCalls + 1 }
        else s
      let s :=
        match d.transcript with
        | none => s
        | some t =>
            let fin := d.is_final == some true
            let s :=
              if fin && jsTruthy d.full_transcript then
                { s with transcript := d.full_transcript.getD "" }
              else s
            { s with onTranscriptCalls := s.onTranscriptCalls ++ [(t, fin)] }
      let s :=
        match d.concepts with
        | some cs =>
            { s with concepts := cs, onConceptsCalls := s.onConceptsCalls + 1 }
        | none => s
      let s :=
        match d.current_concept with
        | some c => { s with currentConcept := some c }
        | none => s
      if d.status == some "error" then
        { s with error := d.message, onErrorCalls := s.onErrorCalls + 1 }
      else s

/-- socket.onclose in useDeepgramAudio: the browser moves the socket to
CLOSED and the handler sets isConnected false (the .js variant also resets
isConnecting). -/
def dgNetClose (s : DgState) : DgState :=
  if s.socket = some ReadyState.opened then
    { s with socket := some ReadyState.closed, isConnected := false,
             isConnecting := false }
  else s

/-- mediaRecorder.ondataavailable in useDeepgramAudio.ts: a non-empty frame is
handed to the asynchronous base64 encode only when the socket is OPEN at
capture time; there is no later open-state check. -/
def tsOndataavailable (s : DgState) (size : Nat) : DgState :=
  if 0 < size ∧ s.socket = some ReadyState.opened then
    { s with pendingEncodes := s.pendingEncodes + 1 }
  else s

/-- reader.onloadend in useDeepgramAudio.ts: socketRef.current?.send(...).
Only the null check of optional chaining guards the send; the send call is
issued whatever the readyState is.  A send on a socket that is not OPEN is
not transmitted (the browser discards the data). -/
def tsOnloadend (s : DgState) : DgState :=
  if s.pendingEncodes = 0 then s
  else
    let s := { s with pendingEncodes := s.pendingEncodes - 1 }
    match s.socket with
    | none => s
    | some rs =>
        if rs = ReadyState.opened then
          { s with sendCalls := s.sendCalls + 1, sentFrames := s.sentFrames + 1 }
        else
          { s with sendCalls := s.sendCalls + 1,
                   sendCallsNotOpen := s.sendCallsNotOpen + 1 }

/-- mediaRecorder.ondataavailable in useDeepgramAudio.js: a non-empty frame is
dropped with a warning unless the socket is OPEN at capture time; otherwise
the asynchronous base64 encode is started. -/
def jsOndataavailable (s : DgState) (size : Nat) : DgState :=
  if 0 < size then
    if s.socket = some ReadyState.opened then
      { s with pendingEncodes := s.pendingEncodes + 1 }
    else s
  else s

/-- reader.onloadend in useDeepgramAudio.js: the socket state is re-checked
right before sending; when the socket is no longer OPEN the frame is dropped
with a warning instead of being sent. -/
def jsOnloadend (s : DgState) : DgState :=
  if s.pendingEncodes = 0 then s
  else
    let s := { s with pendingEncodes := s.pendingEncodes - 1 }
    if s.socket = some ReadyState.opened then
      { s with sendCalls := s.sendCalls + 1, sentFrames := s.sentFrames + 1 }
    else s

/-- Audio pipeline events: a capture event of the media recorder, or the
completion of one pending base64 encode. -/
inductive AudioEv
  | capture (size : Nat)
  | encodeDone
deriving DecidableEq, Repr

/-- One audio pipeline step of the .js variant. -/
def audioStepJs (s : DgState) : AudioEv → DgState
  | AudioEv.capture sz => jsOndataavailable s sz
  | AudioEv.encodeDone => jsOnloadend s

/-- Fold audio pipeline events over the .js variant. -/
def runAudioJs (s : DgState) (evs : List AudioEv) : DgState :=
  evs.foldl audioStepJs s

/-- JS prev.endsWith(" ") for the one-character suffix: the last character of
the string is a space. -/
def endsWithSpace (s : String) : Bool := s.data.getLast? == some ' '

/-- handleTranscriptMessage in AudioToTextRecorder.tsx: every incoming
transcript string is appended to the accumulated transcript, separated by a
space unless the accumulator is empty or already ends in a space. -/
def handleTranscriptMessage (prev newTranscript : String) : String :=
  prev ++ (if prev != "" && !endsWithSpace prev then " " else "") ++ newTranscript

/-- ws.onmessage in AudioToTextRecorder.tsx: a parse failure is swallowed; a
message with a truthy transcript field is handed to handleTranscriptMessage. -/
def recorderOnMessage (tr : String) (f : DgFrame) : String :=
  match f with
  | DgFrame.malformed => tr
  | DgFrame.wellFormed d =>
      if jsTruthy d.transcript then handleTranscriptMessage tr (d.transcript.getD "")
      else tr

/-- A non-final (interim) transcript message carrying hypothesis text t. -/
def interimMsg (t : String) : DgMsg :=
  ⟨none, none, some t, some false, none, none, none, none⟩

/-- A final transcript message with final text t and the full transcript ft
accumulated server side. -/
def finalMsg (t ft : String) : DgMsg :=
  ⟨none, none, some t, some true, some ft, none, none, none⟩

/-- DEBOUNCE_TIME = 500 ms in useDeepgramAudio.js. -/
def DEBOUNCE_TIME : Nat := 500

/-- Outcomes of the awaited external steps inside useDeepgramAudio.js
startRecording: whether the connect() attempt reaches OPEN, whether the
socket is still OPEN after the 1000 ms settling wait, and whether
getUserMedia grants the microphone. -/
structure StartOutcome where
  connectOpens : Bool
  stillOpenAfterWait : Bool
  micGranted : Bool
deriving DecidableEq, Repr

/-- connect() from useDeepgramAudio.js, with the promise resolution collapsed
to whether the new socket reached OPEN (then the init payload is sent and the
promise resolves true) or failed (the error, close and timeout paths all
leave the socket not OPEN and resolve false).  A concurrent call while
isConnecting is a no-op resolving false.  The previously held socket is
closed and replaced. -/
def jsConnect (s : DgState) (opens : Bool) : DgState × Bool :=
  if s.isConnecting then (s, false)
  else
    let s := { s with isConnecting := true, socket := some ReadyState.connecting }
    if opens then
      ({ s with socket := some ReadyState.opened, isConnected := true,
                error := none, isConnecting := false,
                sentInit := s.sentInit + 1 }, true)
    else
      ({ s with socket := some ReadyState.closed, isConnected := false,
                isConnecting := false }, false)

/-- stopRecording from useDeepgramAudio.js.  Nat subtraction truncates at
zero, which matches the JS comparison now - last < 500 also when now < last
(a negative difference also passes the guard). -/
def jsStopRecording (now : Nat) (s : DgState) : DgState :=
  if now - s.lastActionTime < DEBOUNCE_TIME then s
  else
    let s := { s with lastActionTime := now }
    let s :=
      match s.recorder with
      | some RecorderState.recording => { s with recorder := some RecorderState.inactive }
      | _ => s
    let s := if s.streamHeld then { s with streamHeld := false } else s
    { s with isRecording := false }

/-- The tail of startRecording in useDeepgramAudio.js once a usable OPEN
socket is in hand: getUserMedia, MediaRecorder creation and start; a denied
microphone is caught and surfaced. -/
def startRecordingAcquire (o : StartOutcome) (s : DgState) : DgState :=
  if o.micGranted then
    { s with streamHeld := true, recorder := some RecorderState.recording,
             isRecording := true, error := none }
  else
    { s with error := some "Failed to access microphone", isRecording := false,
             onErrorCalls := s.onErrorCalls + 1 }

/-- startRecording from useDeepgramAudio.js.  After the debounce guard it
stamps lastActionTime, so the inner stopRecording() call (issued while a
recording is active) always hits its own debounce guard and is a no-op; then
it ensures an OPEN socket (connecting when needed, with a post-wait
re-check) before acquiring the microphone and starting the recorder. -/
def jsStartRecording (now : Nat) (o : StartOutcome) (s : DgState) : DgState :=
  if now - s.lastActionTime < DEBOUNCE_TIME then s
  else
    let s := { s with lastActionTime := now }
    let s := if s.isRecording then jsStopRecording now s else s
    if s.socket = some ReadyState.opened then
      startRecordingAcquire o s
    else
      let s := { s with isRecording := false }
      let (s, connected) := jsConnect s o.connectOpens
      if !connected then
        { s with error := some "Could not establish WebSocket connection" }
      else
        let s :=
          if o.stillOpenAfterWait then s
          else { s with socket := some ReadyState.closed, isConnected := false }
        if s.socket = some ReadyState.opened then startRecordingAcquire o s
        else { s with error := some "WebSocket connection not ready" }

/-- A concrete concept payload used in concrete runs. -/
def conceptA : ConceptFlagData :=
  ⟨"Photosynthesis", "plants turn light into sugar", none, none, none, none⟩

/-- A second concrete concept payload used in concrete runs. -/
def conceptB : ConceptFlagData :=
  ⟨"Osmosis", "water crosses membranes", none, none, none, none⟩

end ClarifAI

section Theorems

namespace ClarifAI

/-- C2: for every attempt number, the reconnect delay equals
min(1000 ms * 2 ^ attempt, 30000 ms); it is monotonically non-decreasing in
the attempt number and never exceeds 30 seconds. -/
theorem reconnectDelay_formula_monotone_capped (attempt : Nat) :
    reconnectDelay attempt = min (1000 * 2 ^ attempt) 30000 ∧
    reconnectDelay attempt ≤ reconnectDelay (attempt + 1) ∧
    reconnectDelay attempt ≤ 30000 := by
  refine ⟨rfl, ?_, min_le_right _ _⟩
  have h : 1000 * 2 ^ attempt ≤ 1000 * 2 ^ (attempt + 1) :=
    Nat.mul_le_mul_left 1000
      (Nat.pow_le_pow_right (by norm_num) (Nat.le_succ attempt))
  exact min_le_min h le_rfl

/-- C9: the ws.onmessage handler of useConceptFlag sets the loading flag to
false before any parsing or routing, so after handling any inbound frame,
malformed or not, related to a pending request or not, isLoading is false. -/
theorem onMessage_clears_isLoading (s : FlagState) (f : RawFrame) :
    (onMessageBody s f).isLoading = false := by
  cases f with
  | malformed => rfl
  | wellFormed m =>
      simp only [onMessageBody]
      split <;> rfl

/-- C1: evaluating the machine at the failing input.  From a mounted and
successfully opened connection, the cleanup (manual disconnect) clears the
reconnect timer and closes the socket; but delivering the close event of that
manually closed socket runs ws.onclose, which schedules a fresh 1000 ms
reconnect, and when that timer fires the hook re-enters the CONNECTING state
with a brand new socket: the reconnect is resurrected after intentional
teardown. -/
theorem cleanup_then_timer_reconnects :
    (runFlag false flagMount [FlagEv.openOk, FlagEv.cleanup]).reconnectTimer = none ∧
    (runFlag false flagMount
        [FlagEv.openOk, FlagEv.cleanup, FlagEv.deliverClose]).reconnectTimer = some 1000 ∧
    (runFlag false flagMount
        [FlagEv.openOk, FlagEv.cleanup, FlagEv.deliverClose,
         FlagEv.timerFire]).socket = some ReadyState.connecting := by
  decide

/-- C3: in the all-attempts-fail scenario exactly five reconnects are
scheduled, at delays 1 s, 2 s, 4 s, 8 s and 16 s; the fatal maximum-attempts
error is reported exactly once; no sixth timer is pending afterwards, and no
further event of the scenario can change the terminal state. -/
theorem scenarioB_behaviour :
    (runFlag false flagMount scenarioB).scheduledDelays
        = [1000, 2000, 4000, 8000, 16000] ∧
    (runFlag false flagMount scenarioB).errorMsgs.count fatalMsg = 1 ∧
    (runFlag false flagMount scenarioB).reconnectTimer = none ∧
    runFlag false (runFlag false flagMount scenarioB)
        [FlagEv.timerFire, FlagEv.connectFail, FlagEv.netClose,
         FlagEv.deliverStaleClose]
      = runFlag false flagMount scenarioB := by
  decide

/-- C7: an inbound text frame that fails to parse is handled inside the
handler: in useConceptFlag it is forwarded to the onError callback and
nothing else changes, in useDeepgramAudio it changes nothing at all; in both
hooks the event is dropped (no explanation routed) and the socket is left
exactly as it was, in particular an open connection stays open. -/
theorem malformed_frame_safe (s : FlagState) (t : DgState) :
    (onMessageBody s RawFrame.malformed).socket = s.socket ∧
    (onMessageBody s RawFrame.malformed).explanations = s.explanations ∧
    (onMessageBody s RawFrame.malformed).errorMsgs = s.errorMsgs ++ [parseFailMsg] ∧
    dgOnMessage t DgFrame.malformed = t :=
  ⟨rfl, rfl, rfl, rfl⟩

/-- C5 counterexample: with a request already pending (isLoading was set by a
first flagConcept call that was sent and has not resolved), a second
flagConcept call sends a second wire message and reports no error at all,
instead of failing fast with an AlreadyPending condition. -/
theorem flag_while_pending_sends_second :
    (flagConcept (runFlag false flagMount [FlagEv.openOk]) conceptA).isLoading = true ∧
    (flagConcept (flagConcept (runFlag false flagMount [FlagEv.openOk]) conceptA)
        conceptB).sentMessages = [conceptA, conceptB] ∧
    (flagConcept (flagConcept (runFlag false flagMount [FlagEv.openOk]) conceptA)
        conceptB).errorMsgs
      = (flagConcept (runFlag false flagMount [FlagEv.openOk]) conceptA).errorMsgs := by
  decide

/-- C5 amended: flagConcept does not track outstanding requests.  Whenever the
socket is OPEN it serializes and sends the payload, even while a previous
request is still pending, raising no error; only a non-open socket makes it
fail fast with the not-connected error and no send. -/
theorem flagConcept_sends_when_open (s : FlagState) (d : ConceptFlagData)
    (h : s.socket = some ReadyState.opened) :
    (flagConcept s d).sentMessages = s.sentMessages ++ [d] ∧
    (flagConcept s d).errorMsgs = s.errorMsgs ∧
    (flagConcept s d).isLoading = true := by
  simp [flagConcept, h]

/-- Concrete instance of flagConcept_sends_when_open on a freshly opened
connection. -/
theorem flagConcept_sends_when_open_witness :
    (runFlag false flagMount [FlagEv.openOk]).socket = some ReadyState.opened ∧
    ((flagConcept (runFlag false flagMount [FlagEv.openOk]) conceptA).sentMessages
        = (runFlag false flagMount [FlagEv.openOk]).sentMessages ++ [conceptA] ∧
      (flagConcept (runFlag false flagMount [FlagEv.openOk]) conceptA).errorMsgs
        = (runFlag false flagMount [FlagEv.openOk]).errorMsgs ∧
      (flagConcept (runFlag false flagMount [FlagEv.openOk]) conceptA).isLoading = true) :=
  ⟨by decide, flagConcept_sends_when_open _ conceptA (by decide)⟩

/-- C6 counterexample: on a state with no pending request (isLoading is false
on the freshly opened connection), an inbound explanation event still invokes
the success callback instead of being discarded. -/
theorem unsolicited_explanation_invokes_callback :
    (runFlag false flagMount [FlagEv.openOk]).isLoading = false ∧
    (onMessageBody (runFlag false flagMount [FlagEv.openOk])
        (RawFrame.wellFormed ⟨"light becomes sugar", "success", none⟩)).explanations
      = ["light becomes sugar"] := by
  decide

/-- C6 amended: the ws.onmessage handler of useConceptFlag routes every
parsed frame whose status is not "error" to the onExplanation callback, with
no check that a request is pending: unsolicited explanation events invoke the
success callback. -/
theorem onMessage_explanation_always_routed (s : FlagState)
    (m : FlagConceptResponse) (h : m.status ≠ "error") :
    (onMessageBody s (RawFrame.wellFormed m)).explanations
      = s.explanations ++ [m.explanation] := by
  simp [onMessageBody, h]

/-- Concrete instance of onMessage_explanation_always_routed. -/
theorem onMessage_explanation_always_routed_witness :
    (("done" : String) ≠ "error") ∧
    (onMessageBody flagMount
        (RawFrame.wellFormed ⟨"chlorophyll absorbs light", "done", none⟩)).explanations
      = flagMount.explanations ++ ["chlorophyll absorbs light"] :=
  ⟨by decide,
   onMessage_explanation_always_routed flagMount
     ⟨"chlorophyll absorbs light", "done", none⟩ (by decide)⟩

/-- C8 counterexample: AudioToTextRecorder appends every transcript message.
Three interim hypotheses followed by the final text leave the buffer holding
all three hypotheses concatenated before the final text, not the final text
alone. -/
theorem recorder_appends_hypotheses :
    ([DgFrame.wellFormed (interimMsg "a"), DgFrame.wellFormed (interimMsg "a b"),
      DgFrame.wellFormed (interimMsg "a b c"),
      DgFrame.wellFormed (finalMsg "a b c." "a b c.")].foldl recorderOnMessage "")
      = "a a b a b c a b c." ∧
    ("a a b a b c a b c." : String) ≠ "a b c." := by
  decide

/-- Helper: a non-final transcript event leaves the transcript stored by
useDeepgramAudio untouched. -/
theorem dgOnMessage_interim_transcript (s : DgState) (p : String) :
    (dgOnMessage s (DgFrame.wellFormed (interimMsg p))).transcript = s.transcript :=
  rfl

/-- C8 amended: in the useDeepgramAudio hook the invariant does hold: interim
(non-final) transcript events never modify the stored transcript, and a final
event carrying a non-empty full transcript replaces it wholesale, so after
any number of interim events followed by one final event the buffer equals
exactly the final full text, with no duplication of the interim hypotheses.
In AudioToTextRecorder.tsx, by contrast, every transcript message is appended
(see the C8 counterexample). -/
theorem dg_transcript_replaced_wholesale (s : DgState) (hyps : List String)
    (t ft : String) (h : ft ≠ "") :
    ((hyps.map (fun p => DgFrame.wellFormed (interimMsg p))).foldl
        dgOnMessage s).transcript = s.transcript ∧
    (dgOnMessage
        ((hyps.map (fun p => DgFrame.wellFormed (interimMsg p))).foldl dgOnMessage s)
        (DgFrame.wellFormed (finalMsg t ft))).transcript = ft := by
  have hfold : ∀ (s : DgState),
      ((hyps.map (fun p => DgFrame.wellFormed (interimMsg p))).foldl
          dgOnMessage s).transcript = s.transcript := by
    induction hyps with
    | nil => intro s; rfl
    | cons p ps ih =>
        intro s
        rw [List.map_cons, List.foldl_cons, ih, dgOnMessage_interim_transcript]
  refine ⟨hfold s, ?_⟩
  simp [dgOnMessage, finalMsg, jsTruthy, h]

/-- Concrete instance of dg_transcript_replaced_wholesale. -/
theorem dg_transcript_replaced_wholesale_witness :
    (("a b c." : String) ≠ "") ∧
    (((["a", "a b"].map (fun p => DgFrame.wellFormed (interimMsg p))).foldl
        dgOnMessage dgInit).transcript = dgInit.transcript ∧
      (dgOnMessage
          ((["a", "a b"].map (fun p => DgFrame.wellFormed (interimMsg p))).foldl
            dgOnMessage dgInit)
          (DgFrame.wellFormed (finalMsg "a b c." "a b c."))).transcript = "a b c.") :=
  ⟨by decide,
   dg_transcript_replaced_wholesale dgInit ["a", "a b"] "a b c." "a b c." (by decide)⟩

/-- C4 counterexample: in useDeepgramAudio.ts the open-state check runs at
capture time only.  A frame captured while the socket is OPEN, with the
socket closing before the base64 encode completes, still has the send call
issued on the no-longer-open socket: there is no open-state check at send
time (the browser then discards the data, so nothing is transmitted). -/
theorem ts_send_without_open_check :
    (tsOnloadend (dgNetClose (tsOndataavailable
        { dgInit with socket := some ReadyState.opened } 100))).sendCallsNotOpen = 1 ∧
    (tsOnloadend (dgNetClose (tsOndataavailable
        { dgInit with socket := some ReadyState.opened } 100))).sentFrames = 0 := by
  decide

/-- Helper: audio pipeline steps of the .js variant never change the socket. -/
theorem audioStepJs_socket (s : DgState) (e : AudioEv) :
    (audioStepJs s e).socket = s.socket := by
  cases e with
  | capture sz =>
      simp only [audioStepJs, jsOndataavailable]
      split
      · split <;> rfl
      · rfl
  | encodeDone =>
      simp only [audioStepJs, jsOnloadend]
      split
      · rfl
      · split <;> rfl

/-- Helper: with a socket that is not OPEN, no .js audio pipeline step
transmits a frame, and a capture is dropped without even starting an encode. -/
theorem audioStepJs_no_send (s : DgState) (e : AudioEv)
    (hnot : s.socket ≠ some ReadyState.opened) :
    (audioStepJs s e).sentFrames = s.sentFrames := by
  cases e with
  | capture sz =>
      by_cases h1 : 0 < sz <;> by_cases h2 : s.socket = some ReadyState.opened <;>
        simp [audioStepJs, jsOndataavailable, h1, h2]
  | encodeDone =>
      by_cases h1 : s.pendingEncodes = 0 <;>
        simp [audioStepJs, jsOnloadend, h1, hnot]

/-- C4 amended: the stated property holds of the .js variant, where the state
is checked both at capture time and again at send time: a capture while the
socket is not OPEN is dropped entirely, the post-encode send is suppressed
whenever the socket is not OPEN at that moment, and over any sequence of
capture and encode-completion events during an outage the number of frames
sent is zero.  In the .ts variant the post-encode send call is issued without
an open-state check (the C4 counterexample), although the transport discards
such data, so no frame is transmitted during an outage there either. -/
theorem js_send_time_check (s : DgState) (evs : List AudioEv)
    (hnot : s.socket ≠ some ReadyState.opened) :
    (∀ sz, jsOndataavailable s sz = s) ∧
    (jsOnloadend s).sentFrames = s.sentFrames ∧
    (runAudioJs s evs).sentFrames = s.sentFrames ∧
    (tsOnloadend s).sentFrames = s.sentFrames := by
  refine ⟨?_, ?_, ?_, ?_⟩
  · intro sz
    simp [jsOndataavailable, hnot]
  · by_cases h1 : s.pendingEncodes = 0 <;> simp [jsOnloadend, h1, hnot]
  · induction evs generalizing s with
    | nil => rfl
    | cons e es ih =>
        rw [runAudioJs, List.foldl_cons]
        have h1 : (audioStepJs s e).socket ≠ some ReadyState.opened := by
          rw [audioStepJs_socket]; exact hnot
        have h2 := ih (audioStepJs s e) h1
        rw [runAudioJs] at h2
        rw [h2, audioStepJs_no_send s e hnot]
  · simp only [tsOnloadend]
    split
    · rfl
    · cases hs : s.socket with
      | none => simp [hs]
      | some rs =>
          have hrs : rs ≠ ReadyState.opened := fun h2 => hnot (by rw [hs, h2])
          simp [hs, hrs]

/-- Concrete instance of js_send_time_check during an outage. -/
theorem js_send_time_check_witness :
    ({ dgInit with socket := some ReadyState.closed }.socket
        ≠ some ReadyState.opened) ∧
    ((∀ sz, jsOndataavailable { dgInit with socket := some ReadyState.closed } sz
        = { dgInit with socket := some ReadyState.closed }) ∧
      (jsOnloadend { dgInit with socket := some ReadyState.closed }).sentFrames
        = { dgInit with socket := some ReadyState.closed }.sentFrames ∧
      (runAudioJs { dgInit with socket := some ReadyState.closed }
          [AudioEv.capture 10, AudioEv.encodeDone]).sentFrames
        = { dgInit with socket := some ReadyState.closed }.sentFrames ∧
      (tsOnloadend { dgInit with socket := some ReadyState.closed }).sentFrames
        = { dgInit with socket := some ReadyState.closed }.sentFrames) :=
  ⟨by decide,
   js_send_time_check { dgInit with socket := some ReadyState.closed }
     [AudioEv.capture 10, AudioEv.encodeDone] (by decide)⟩

/-- C10: startRecording and stopRecording in useDeepgramAudio.js share the
single 500 ms debounce window keyed on lastActionTimeRef: a call to either
arriving strictly less than 500 ms after the previously accepted action
returns immediately with the state completely unchanged - recording state,
media recorder, captured stream and socket included. -/
theorem debounce_blocks_rapid_calls (s : DgState) (now : Nat) (o : StartOutcome)
    (h : now - s.lastActionTime < DEBOUNCE_TIME) :
    jsStopRecording now s = s ∧ jsStartRecording now o s = s := by
  constructor
  · simp only [jsStopRecording]
    rw [if_pos h]
  · simp only [jsStartRecording]
    rw [if_pos h]

/-- Concrete instance of debounce_blocks_rapid_calls, 3 ms after the last
accepted action. -/
theorem debounce_blocks_rapid_calls_witness :
    ((3 : Nat) - dgInit.lastActionTime < DEBOUNCE_TIME) ∧
    (jsStopRecording 3 dgInit = dgInit ∧
      jsStartRecording 3 ⟨true, true, true⟩ dgInit = dgInit) :=
  ⟨by decide, debounce_blocks_rapid_calls dgInit 3 ⟨true, true, true⟩ (by decide)⟩

end ClarifAI

end Theorems
